import Mathlib

/-!
Verification of the `elevenlabs-agents` MCP server against its specification.

Shallow embedding of `src/elevenlabs_client.py` and `src/mcp_server.py`:
pure request-building and dispatch logic is translated to Lean functions;
external effects (HTTP requests to the ElevenLabs API and to the MIA bridge,
temp-file creation, the event-loop clock) are supplied by an explicit
`World` oracle; Python exceptions are modelled with `Except PyExc`.
-/

/-- A Python/JSON value as it flows through the server: tool arguments,
parsed JSON response bodies, voice-settings entries.  Floats in the source
(`0.5`) are exact, so they are modelled by rationals. -/
inductive PyVal where
  | str (s : String)
  | num (q : ℚ)
  | boolv (b : Bool)
  | null
  | arr (xs : List PyVal)
  | obj (kvs : List (String × PyVal))

/-- Python truthiness (`if x:`) of a value: empty strings, zero, `False`,
`None`, empty lists and empty dicts are falsy. -/
def PyVal.truthy : PyVal → Bool
  | .str s => !s.isEmpty
  | .num q => decide (q ≠ 0)
  | .boolv b => b
  | .null => false
  | .arr xs => !xs.isEmpty
  | .obj kvs => !kvs.isEmpty

/-- Rendering of a value inside an f-string, Python `str()`.  Scalars are
rendered exactly; composite values (never rendered on any path the server
takes with schema-conforming data) are abbreviated. -/
def PyVal.toStr : PyVal → String
  | .str s => s
  | .num q => toString q
  | .boolv b => if b then "True" else "False"
  | .null => "None"
  | .arr _ => "[...]"
  | .obj _ => "\x7b...\x7d"

/-- Python exceptions that the embedded code can raise. -/
inductive PyExc where
  | keyError (k : String)
  | valueError (msg : String)
  | typeError (msg : String)
  | httpError (msg : String)
deriving Repr

/-- Python `str(e)` on an exception: `str(KeyError(k))` is the repr of the
key (quoted); the others render their message. -/
def excMsg : PyExc → String
  | .keyError k => "'" ++ k ++ "'"
  | .valueError m => m
  | .typeError m => m
  | .httpError m => m

/-- A Python dict with string keys, as an insertion-ordered association
list (CPython dict semantics). -/
abbrev PyDict (α : Type) := List (String × α)

/-- `d[k]` — raises `KeyError` when the key is absent. -/
def dictGetExc (d : PyDict PyVal) (k : String) : Except PyExc PyVal :=
  match d.find? (fun kv => kv.1 = k) with
  | some kv => .ok kv.2
  | none => .error (.keyError k)

/-- `d.get(k, dflt)` — total lookup with default. -/
def dictGetD (d : PyDict PyVal) (k : String) (dflt : PyVal) : PyVal :=
  match d.find? (fun kv => kv.1 = k) with
  | some kv => kv.2
  | none => dflt

/-- `len(x)` — defined for strings, lists and dicts; `TypeError` otherwise. -/
def pyLen : PyVal → Except PyExc Nat
  | .str s => .ok s.length
  | .arr xs => .ok xs.length
  | .obj kvs => .ok kvs.length
  | _ => .error (.typeError "object has no len()")

/-- Tool arguments: the JSON mapping handed to `call_tool`. -/
abbrev Args := PyDict PyVal

/-! ## HTTP layer

An HTTP request's outcome, as seen by the caller of `httpx`: either a
response (with status code and an already-parsed body of the appropriate
shape) or a transport-level failure (`httpx.TransportError`). -/

/-- Outcome of one `httpx` request. -/
inductive HttpOutcome (α : Type) where
  | resp (status : Nat) (body : α)
  | transportError (msg : String)

/-- `response.raise_for_status()` composed with the request: a transport
error or a 4xx/5xx status becomes an `httpx.HTTPError`; otherwise the body
is returned.  Both exception classes are subclasses of `httpx.HTTPError`,
which is what every `except` clause in the client catches. -/
def tryRequest {α : Type} : HttpOutcome α → Except PyExc α
  | .transportError m => .error (.httpError m)
  | .resp status body =>
      if 400 ≤ status then .error (.httpError ("HTTP status " ++ toString status))
      else .ok body

/-- The request failed at the HTTP level (transport error or error status). -/
def httpFailed {α : Type} (o : HttpOutcome α) : Bool :=
  match tryRequest o with
  | .error _ => true
  | .ok _ => false

/-! ## ElevenLabs client (`src/elevenlabs_client.py`) -/

/-- One entry of the `voices` array returned by `GET /v1/voices`: a JSON
object. -/
abbrev Voice := PyDict PyVal

/-- Parsed JSON body of `GET /v1/voices`: `data.get("voices", [])` reads the
`voices` key, which may be absent. -/
structure VoicesBody where
  voices : Option (List Voice)

/-- `ElevenLabsClient.get_voices`: on any `httpx.HTTPError` (transport
failure or `raise_for_status`) the exception is caught and `[]` is
returned; otherwise `data.get("voices", [])`. -/
def get_voices (outcome : HttpOutcome VoicesBody) : List Voice :=
  match tryRequest outcome with
  | .error _ => []
  | .ok data => data.voices.getD []

/-- `ElevenLabsClient.get_voice`: on any `httpx.HTTPError` the exception is
caught and `None` is returned; otherwise `response.json()`. -/
def get_voice (outcome : HttpOutcome PyVal) : Option PyVal :=
  match tryRequest outcome with
  | .error _ => Option.none
  | .ok j => some j

/-- Voice settings: the `voice_settings` dict. -/
abbrev Settings := PyDict PyVal

/-- The settings default used when `voice_settings` is falsy:
`{"stability": 0.5, "similarity_boost": 0.5}`. -/
def defaultVoiceSettings : Settings :=
  [("stability", PyVal.num (1/2)), ("similarity_boost", PyVal.num (1/2))]

/-- Python `voice_settings or dflt`: `None` and the empty dict `\x7b\x7d` are
both falsy, so either of them selects the default. -/
def pyOrDict (vs : Option Settings) (dflt : Settings) : Settings :=
  match vs with
  | Option.none => dflt
  | some s => if s.isEmpty then dflt else s

/-- A field of the text-to-speech request body: a JSON string or the
settings object. -/
inductive BodyField where
  | str (s : String)
  | settings (kvs : Settings)

/-- The HTTP request `generate_speech` issues: URL path, the per-request
`Accept` header, and the JSON payload. -/
structure TtsRequest where
  path : String
  accept : String
  payload : PyDict BodyField

/-- The model id used when the `model_id` parameter is not supplied
(the Python definition-site default). -/
def resolveModelId (m : Option String) : String :=
  m.getD "eleven_monolingual_v1"

/-- The payload `generate_speech` builds: exactly the `text`, `model_id`
and `voice_settings` fields, with `voice_settings or {stability: 0.5,
similarity_boost: 0.5}`. -/
def ttsPayload (text model_id : String) (vs : Option Settings) : PyDict BodyField :=
  [("text", BodyField.str text),
   ("model_id", BodyField.str model_id),
   ("voice_settings", BodyField.settings (pyOrDict vs defaultVoiceSettings))]

/-- The full request: `POST /v1/text-to-speech/{voice_id}` with the payload
and an explicit `Accept: audio/mpeg` header. -/
def ttsRequest (text voice_id model_id : String) (vs : Option Settings) : TtsRequest :=
  ⟨"/v1/text-to-speech/" ++ voice_id, "audio/mpeg", ttsPayload text model_id vs⟩

/-- `ElevenLabsClient.generate_speech`: builds the request, and on any
`httpx.HTTPError` catches it and returns `None`; otherwise
`response.content` (the audio bytes).  Returns the request it issued
together with the result. -/
def generate_speech (text voice_id model_id : String) (vs : Option Settings)
    (outcome : HttpOutcome (List Nat)) : TtsRequest × Option (List Nat) :=
  let req := ttsRequest text voice_id model_id vs
  match tryRequest outcome with
  | .error _ => (req, Option.none)
  | .ok content => (req, some content)

/-! ## Voice profile store (`VoiceProfileManager`) -/

/-- A stored voice profile: the dict
`{"voice_id": ..., "settings": ..., "created_at": ...}`. -/
structure VoiceProfile where
  voice_id : String
  settings : Settings
  created_at : ℚ

/-- The in-memory profile store `self.profiles`: a Python dict from profile
name to profile. -/
abbrev Store := List (String × VoiceProfile)

/-- CPython dict assignment `d[name] = p`: overwrite in place when the key
exists (keeping insertion order), append otherwise. -/
def dictSet (store : Store) (name : String) (p : VoiceProfile) : Store :=
  if store.any (fun kv => kv.1 = name)
  then store.map (fun kv => if kv.1 = name then (name, p) else kv)
  else store ++ [(name, p)]

/-- `VoiceProfileManager.create_profile`: stores
`{"voice_id": voice_id, "settings": settings, "created_at": now}` under
`name` (`now` is the event-loop clock reading). -/
def create_profile (store : Store) (name voice_id : String) (settings : Settings)
    (now : ℚ) : Store :=
  dictSet store name ⟨voice_id, settings, now⟩

/-- `VoiceProfileManager.get_profile`: `self.profiles.get(name)`. -/
def get_profile (store : Store) (name : String) : Option VoiceProfile :=
  (store.find? (fun kv => kv.1 = name)).map Prod.snd

/-- `VoiceProfileManager.list_profiles`: `list(self.profiles.keys())`. -/
def list_profiles (store : Store) : List String :=
  store.map Prod.fst

/-! ## MIA bridge (`MIAVoiceIntegration`) and `serve` -/

/-- `MIAVoiceIntegration` instance state: host, port, and the base URL
`f"http://{mia_host}:{mia_port}"` built in `__init__`. -/
structure MIAVoiceIntegration where
  mia_host : String
  mia_port : Nat
  mia_base_url : String

/-- The body of `MIAVoiceIntegration.__init__(mia_host, mia_port)`. -/
def MIAVoiceIntegration.init (mia_host : String) (mia_port : Nat) : MIAVoiceIntegration :=
  ⟨mia_host, mia_port, "http://" ++ mia_host ++ ":" ++ toString mia_port⟩

/-- Parameter names accepted by `MIAVoiceIntegration.__init__` (besides
`self`). -/
def miaInitParams : List String := ["mia_host", "mia_port"]

/-- Python keyword binding: every keyword at the call site must name a
declared parameter, else the call raises `TypeError` before the body runs. -/
def kwargsOk (kwargs params : List String) : Bool :=
  kwargs.all (fun k => params.contains k)

/-- The bridge construction in `serve`:
`MIAVoiceIntegration(host=mia_host, port=mia_port)` — the call site binds
keywords `host` and `port` against the declared parameters. -/
def serveBridgeConstruction (mia_host : String) (mia_port : Nat) :
    Except PyExc MIAVoiceIntegration :=
  if kwargsOk ["host", "port"] miaInitParams
  then .ok (MIAVoiceIntegration.init mia_host mia_port)
  else .error (.typeError
    "__init__() got an unexpected keyword argument 'host'")

/-- `MIAVoiceIntegration.execute_voice_command`: posts the command; on any
`httpx.HTTPError` the exception is caught and the uniform error object
`{"error": f"Failed to execute command: {e}"}` is returned. -/
def execute_voice_command (outcome : HttpOutcome (PyDict PyVal)) :
    PyDict PyVal :=
  match tryRequest outcome with
  | .error e => [("error", PyVal.str ("Failed to execute command: " ++ excMsg e))]
  | .ok j => j

/-- `MIAVoiceIntegration.get_mia_status`: on any `httpx.HTTPError` returns
`{"error": f"Failed to get status: {e}"}`. -/
def get_mia_status (outcome : HttpOutcome (PyDict PyVal)) : PyDict PyVal :=
  match tryRequest outcome with
  | .error e => [("error", PyVal.str ("Failed to get status: " ++ excMsg e))]
  | .ok j => j

/-! ## MCP server (`src/mcp_server.py`) -/

/-- An MCP `TextContent` result (`type` is always `"text"` here). -/
structure TextContent where
  type : String
  text : String

-- The declared tool names (`ElevenLabsTools`).
namespace ElevenLabsTools

def LIST_VOICES : String := "elevenlabs_list_voices"

def GET_VOICE_DETAILS : String := "elevenlabs_get_voice_details"

def GENERATE_SPEECH : String := "elevenlabs_generate_speech"

def CREATE_VOICE_PROFILE : String := "elevenlabs_create_voice_profile"

def LIST_VOICE_PROFILES : String := "elevenlabs_list_voice_profiles"

def GENERATE_SPEECH_FROM_PROFILE : String := "elevenlabs_generate_speech_from_profile"

def MIA_VOICE_COMMAND : String := "mia_voice_command"

def GET_MIA_STATUS : String := "mia_get_status_voice"

end ElevenLabsTools

/-- The catalog of the 8 declared tool names, in `list_tools` order. -/
def toolCatalog : List String :=
  [ElevenLabsTools.LIST_VOICES,
   ElevenLabsTools.GET_VOICE_DETAILS,
   ElevenLabsTools.GENERATE_SPEECH,
   ElevenLabsTools.CREATE_VOICE_PROFILE,
   ElevenLabsTools.LIST_VOICE_PROFILES,
   ElevenLabsTools.GENERATE_SPEECH_FROM_PROFILE,
   ElevenLabsTools.MIA_VOICE_COMMAND,
   ElevenLabsTools.GET_MIA_STATUS]

/-- Externally visible effects a single `call_tool` invocation performs.
`tts` records each invocation of `ElevenLabsClient.generate_speech` with
the request it issued. -/
inductive Effect where
  | httpGetVoices
  | httpGetVoice (voice_id : String)
  | tts (req : TtsRequest)
  | miaCommand (command : String)
  | miaStatus
  | saveTempFile

/-- Whether an effect is a voice-synthesis HTTP call. -/
def Effect.isTts : Effect → Bool
  | .tts _ => true
  | _ => false

/-- The oracle for one `call_tool` invocation: outcomes of the external
requests the handler may issue, the temp-file path the OS hands out, and
the event-loop clock. -/
structure World where
  voicesResult : HttpOutcome VoicesBody
  voiceDetailResult : HttpOutcome PyVal
  ttsResult : HttpOutcome (List Nat)
  miaCommandResult : HttpOutcome (PyDict PyVal)
  miaStatusResult : HttpOutcome (PyDict PyVal)
  tempPath : String
  now : ℚ

/-- Result of the `try`-block body of `call_tool`: the value returned or
the exception raised, together with the (possibly updated) profile store
and the effect trace. -/
abbrev RawResult := Except PyExc (List TextContent) × Store × List Effect

/-- `if audio_data:` — truthiness of an `Optional[bytes]`: `None` and the
empty byte string are falsy. -/
def pyTruthyBytes : Option (List Nat) → Bool
  | Option.none => false
  | some bs => !bs.isEmpty

/-- One line of the voices listing:
`f"- {voice['name']} (ID: {voice['voice_id']}, Category: {voice.get('category', 'unknown')})"`
— the subscripts raise `KeyError` when absent. -/
def formatVoiceLine (v : Voice) : Except PyExc String := do
  let n ← dictGetExc v "name"
  let vid ← dictGetExc v "voice_id"
  let cat := dictGetD v "category" (PyVal.str "unknown")
  pure ("- " ++ n.toStr ++ " (ID: " ++ vid.toStr ++ ", Category: " ++ cat.toStr ++ ")")

/-- The `LIST_VOICES` case of `call_tool`. -/
def handleListVoices (w : World) (store : Store) (_args : Args) : RawResult :=
  let voices := get_voices w.voicesResult
  let res := (voices.mapM formatVoiceLine).map (fun lines =>
    [TextContent.mk "text" ("Available voices:\n" ++ String.intercalate "\n" lines)])
  (res, store, [Effect.httpGetVoices])

/-- `if voice_details:` — truthiness of the `Optional` JSON value. -/
def pyTruthyOptVal : Option PyVal → Bool
  | Option.none => false
  | some v => v.truthy

/-- Abstraction of `json.dumps(voice_details, indent=2)`: some rendering of
the JSON value (its exact shape is consumed by no caller). -/
def jsonDumps (v : PyVal) : String := v.toStr

/-- The `GET_VOICE_DETAILS` case of `call_tool`. -/
def handleGetVoiceDetails (w : World) (store : Store) (args : Args) : RawResult :=
  match dictGetExc args "voice_id" with
  | .error e => (.error e, store, [])
  | .ok vidV =>
    let voice_id := vidV.toStr
    let voice_details := get_voice w.voiceDetailResult
    let fx := [Effect.httpGetVoice voice_id]
    if pyTruthyOptVal voice_details then
      (.ok [TextContent.mk "text"
        ("Voice details:\n" ++ jsonDumps (voice_details.getD PyVal.null))], store, fx)
    else
      (.ok [TextContent.mk "text" ("Voice " ++ voice_id ++ " not found")], store, fx)

/-- The `GENERATE_SPEECH` case of `call_tool`. -/
def handleGenerateSpeech (w : World) (store : Store) (args : Args) : RawResult :=
  match dictGetExc args "text" with
  | .error e => (.error e, store, [])
  | .ok textV =>
  match dictGetExc args "voice_id" with
  | .error e => (.error e, store, [])
  | .ok vidV =>
    let text := textV.toStr
    let voice_id := vidV.toStr
    let model_id := (dictGetD args "model_id" (PyVal.str "eleven_monolingual_v1")).toStr
    let stability := dictGetD args "stability" (PyVal.num (1/2))
    let similarity_boost := dictGetD args "similarity_boost" (PyVal.num (1/2))
    let voice_settings := [("stability", stability), ("similarity_boost", similarity_boost)]
    let (req, audio_data) := generate_speech text voice_id model_id (some voice_settings) w.ttsResult
    if pyTruthyBytes audio_data then
      (.ok [TextContent.mk "text"
        ("Speech generated successfully. Audio saved to: " ++ w.tempPath
          ++ "\nText: '" ++ text ++ "'")], store,
        [Effect.tts req, Effect.saveTempFile])
    else
      (.ok [TextContent.mk "text" "Failed to generate speech"], store, [Effect.tts req])

/-- The `CREATE_VOICE_PROFILE` case of `call_tool`. -/
def handleCreateVoiceProfile (w : World) (store : Store) (args : Args) : RawResult :=
  match dictGetExc args "name" with
  | .error e => (.error e, store, [])
  | .ok nameV =>
  match dictGetExc args "voice_id" with
  | .error e => (.error e, store, [])
  | .ok vidV =>
    let name := nameV.toStr
    let voice_id := vidV.toStr
    let stability := dictGetD args "stability" (PyVal.num (1/2))
    let similarity_boost := dictGetD args "similarity_boost" (PyVal.num (1/2))
    let settings := [("stability", stability), ("similarity_boost", similarity_boost)]
    let store' := create_profile store name voice_id settings w.now
    (.ok [TextContent.mk "text"
      ("Voice profile '" ++ name ++ "' created with voice ID '" ++ voice_id ++ "'")],
     store', [])

/-- The `LIST_VOICE_PROFILES` case of `call_tool`. -/
def handleListVoiceProfiles (_w : World) (store : Store) (_args : Args) : RawResult :=
  let profiles := list_profiles store
  if !profiles.isEmpty then
    (.ok [TextContent.mk "text"
      ("Saved voice profiles:\n"
        ++ String.intercalate "\n" (profiles.map (fun p => "- " ++ p)))], store, [])
  else
    (.ok [TextContent.mk "text" "No voice profiles saved yet"], store, [])

/-- The `GENERATE_SPEECH_FROM_PROFILE` case of `call_tool`. -/
def handleGenSpeechFromProfile (w : World) (store : Store) (args : Args) : RawResult :=
  match dictGetExc args "text" with
  | .error e => (.error e, store, [])
  | .ok textV =>
  match dictGetExc args "profile_name" with
  | .error e => (.error e, store, [])
  | .ok pnV =>
    let text := textV.toStr
    let profile_name := pnV.toStr
    match get_profile store profile_name with
    | Option.none =>
        (.ok [TextContent.mk "text"
          ("Voice profile '" ++ profile_name ++ "' not found")], store, [])
    | some profile =>
        let (req, audio_data) :=
          generate_speech text profile.voice_id "eleven_monolingual_v1"
            (some profile.settings) w.ttsResult
        if pyTruthyBytes audio_data then
          (.ok [TextContent.mk "text"
            ("Speech generated from profile '" ++ profile_name
              ++ "'. Audio saved to: " ++ w.tempPath ++ "\nText: '" ++ text ++ "'")],
           store, [Effect.tts req, Effect.saveTempFile])
        else
          (.ok [TextContent.mk "text" "Failed to generate speech from profile"],
           store, [Effect.tts req])

/-- The textual response `mia_voice_command` composes from the bridge
result: success suffix when no `"error"` key, else the error value. -/
def miaCommandResponseText (result : PyDict PyVal) (command : String) : String :=
  let base := "Voice command executed: " ++ command
  match result.find? (fun kv => kv.1 = "error") with
  | Option.none => base ++ ". Command completed successfully."
  | some kv => base ++ ". Error: " ++ kv.2.toStr

/-- The `MIA_VOICE_COMMAND` case of `call_tool`. -/
def handleMiaVoiceCommand (w : World) (store : Store) (args : Args) : RawResult :=
  match dictGetExc args "command" with
  | .error e => (.error e, store, [])
  | .ok cmdV =>
    let command := cmdV.toStr
    let voice_profile := (dictGetD args "voice_profile" (PyVal.str "default")).toStr
    let result := execute_voice_command w.miaCommandResult
    let response_text := miaCommandResponseText result command
    match get_profile store voice_profile with
    | Option.none =>
        (.ok [TextContent.mk "text" response_text], store, [Effect.miaCommand command])
    | some profile =>
        let (req, audio_data) :=
          generate_speech response_text profile.voice_id "eleven_monolingual_v1"
            (some profile.settings) w.ttsResult
        if pyTruthyBytes audio_data then
          (.ok [TextContent.mk "text"
            (response_text ++ "\nVoice response saved to: " ++ w.tempPath)],
           store, [Effect.miaCommand command, Effect.tts req, Effect.saveTempFile])
        else
          (.ok [TextContent.mk "text" response_text], store,
           [Effect.miaCommand command, Effect.tts req])

/-- The status readout `mia_get_status_voice` composes: the error value if
the `"error"` key is present, else healthiness plus `len(devices)` (which
raises `TypeError` when `devices` is not a sized value). -/
def miaStatusTextOf (status : PyDict PyVal) : Except PyExc String :=
  match status.find? (fun kv => kv.1 = "error") with
  | some kv => .ok ("MIA system status unavailable: " ++ kv.2.toStr)
  | Option.none => do
      let base := "MIA system status: "
        ++ (if (dictGetD status "healthy" (PyVal.boolv false)).truthy
            then "System is healthy. " else "System has issues. ")
      let n ← pyLen (dictGetD status "devices" (PyVal.arr []))
      pure (base ++ toString n ++ " devices connected.")

/-- The `GET_MIA_STATUS` case of `call_tool`. -/
def handleGetMiaStatus (w : World) (store : Store) (args : Args) : RawResult :=
  let voice_profile := (dictGetD args "voice_profile" (PyVal.str "default")).toStr
  let status := get_mia_status w.miaStatusResult
  match miaStatusTextOf status with
  | .error e => (.error e, store, [Effect.miaStatus])
  | .ok status_text =>
    match get_profile store voice_profile with
    | Option.none =>
        (.ok [TextContent.mk "text" status_text], store, [Effect.miaStatus])
    | some profile =>
        let (req, audio_data) :=
          generate_speech status_text profile.voice_id "eleven_monolingual_v1"
            (some profile.settings) w.ttsResult
        if pyTruthyBytes audio_data then
          (.ok [TextContent.mk "text"
            (status_text ++ "\nVoice status saved to: " ++ w.tempPath)],
           store, [Effect.miaStatus, Effect.tts req, Effect.saveTempFile])
        else
          (.ok [TextContent.mk "text" status_text], store,
           [Effect.miaStatus, Effect.tts req])

/-- The `try`-block body of `call_tool`: the `match name` dispatch, whose
fall-through case raises `ValueError(f"Unknown tool: {name}")`. -/
def callToolRaw (w : World) (store : Store) (name : String) (args : Args) : RawResult :=
  if name = ElevenLabsTools.LIST_VOICES then handleListVoices w store args
  else if name = ElevenLabsTools.GET_VOICE_DETAILS then handleGetVoiceDetails w store args
  else if name = ElevenLabsTools.GENERATE_SPEECH then handleGenerateSpeech w store args
  else if name = ElevenLabsTools.CREATE_VOICE_PROFILE then handleCreateVoiceProfile w store args
  else if name = ElevenLabsTools.LIST_VOICE_PROFILES then handleListVoiceProfiles w store args
  else if name = ElevenLabsTools.GENERATE_SPEECH_FROM_PROFILE then handleGenSpeechFromProfile w store args
  else if name = ElevenLabsTools.MIA_VOICE_COMMAND then handleMiaVoiceCommand w store args
  else if name = ElevenLabsTools.GET_MIA_STATUS then handleGetMiaStatus w store args
  else (.error (.valueError ("Unknown tool: " ++ name)), store, [])

/-- `call_tool`, the dispatch boundary: the whole body runs under
`try ... except Exception`, which converts any exception into the
one-element result `[TextContent(text=f"Error executing {name}: {e}")]`. -/
def call_tool (w : World) (store : Store) (name : String) (args : Args) :
    List TextContent × Store × List Effect :=
  match callToolRaw w store name args with
  | (.ok r, st, fx) => (r, st, fx)
  | (.error e, st, fx) =>
      ([TextContent.mk "text" ("Error executing " ++ name ++ ": " ++ excMsg e)], st, fx)

/-! ## Helper lemmas -/

theorem strAppendAssoc (a b c : String) : a ++ b ++ c = a ++ (b ++ c) := by
  rcases a with ⟨la⟩; rcases b with ⟨lb⟩; rcases c with ⟨lc⟩
  show String.mk (la ++ lb ++ lc) = String.mk (la ++ (lb ++ lc))
  rw [List.append_assoc]

theorem dictSet_cons_ne (kv : String × VoiceProfile) (rest : Store) (n : String)
    (p : VoiceProfile) (hk : kv.1 ≠ n) :
    dictSet (kv :: rest) n p = kv :: dictSet rest n p := by
  have hf : ((kv :: rest).any (fun e => e.1 = n)) = (rest.any (fun e => e.1 = n)) := by
    simp [List.any_cons, hk]
  unfold dictSet
  rw [hf]
  by_cases h2 : rest.any (fun e => e.1 = n)
  · rw [if_pos h2, if_pos h2, List.map_cons]
    congr 1
    exact if_neg hk
  · rw [if_neg h2, if_neg h2]
    rfl

theorem dictSet_find (store : Store) (n : String) (p : VoiceProfile) :
    (dictSet store n p).find? (fun kv => kv.1 = n) = some (n, p) := by
  induction store with
  | nil => simp [dictSet, List.find?]
  | cons kv rest ih =>
    by_cases hk : kv.1 = n
    · simp [dictSet, List.any_cons, hk, List.find?]
    · rw [dictSet_cons_ne kv rest n p hk]
      simp [List.find?, hk, ih]

theorem get_profile_create (store : Store) (n voice_id : String) (s : Settings) (t : ℚ) :
    get_profile (create_profile store n voice_id s t) n = some ⟨voice_id, s, t⟩ := by
  simp [get_profile, create_profile, dictSet_find]

theorem list_profiles_dictSet_keys (store : Store) (n : String) (p : VoiceProfile) :
    list_profiles (dictSet store n p) =
      if store.any (fun kv => kv.1 = n) then list_profiles store
      else list_profiles store ++ [n] := by
  by_cases h : store.any (fun kv => kv.1 = n)
  · simp only [list_profiles, dictSet, h, if_true, List.map_map]
    refine List.map_congr_left (fun kv _ => ?_)
    by_cases hk : kv.1 = n <;> simp [hk]
  · simp [list_profiles, dictSet, h]

theorem list_profiles_dictSet_nodup (store : Store) (n : String) (p : VoiceProfile)
    (hnd : (list_profiles store).Nodup) :
    (list_profiles (dictSet store n p)).Nodup := by
  rw [list_profiles_dictSet_keys]
  by_cases h : store.any (fun kv => kv.1 = n)
  · simpa [h] using hnd
  · have hn : n ∉ list_profiles store := by
      simp only [List.any_eq_true, decide_eq_true_eq, not_exists] at h
      simp only [list_profiles, List.mem_map, not_exists]
      rintro kv ⟨hmem, hfst⟩
      exact h kv ⟨hmem, hfst⟩
    simp only [h, if_false]
    exact List.Nodup.append hnd (List.nodup_singleton n)
      (by simpa [List.disjoint_singleton] using hn)

/-- A concrete oracle used by the closed witness theorems. -/
def sampleWorld : World where
  voicesResult := .resp 200 ⟨some []⟩
  voiceDetailResult := .resp 200 (PyVal.obj [("name", PyVal.str "Rachel")])
  ttsResult := .resp 200 [7, 7]
  miaCommandResult := .resp 200 []
  miaStatusResult := .resp 200 []
  tempPath := "/tmp/tmpaudio.mp3"
  now := 0

/-! ## Claims -/

/-- C3: when the backend HTTP request fails (transport error or error
status), `get_voices` returns the empty list rather than raising, and
`generate_speech` returns `None` rather than raising. -/
theorem get_voices_generate_speech_degraded
    (o1 : HttpOutcome VoicesBody) (o2 : HttpOutcome (List Nat))
    (text voice_id model_id : String) (vs : Option Settings)
    (h1 : httpFailed o1 = true) (h2 : httpFailed o2 = true) :
    get_voices o1 = [] ∧ (generate_speech text voice_id model_id vs o2).2 = Option.none := by
  constructor
  · cases htr : tryRequest o1 with
    | error e => simp [get_voices, htr]
    | ok v => simp [httpFailed, htr] at h1
  · cases htr : tryRequest o2 with
    | error e => simp [generate_speech, htr]
    | ok v => simp [httpFailed, htr] at h2

/-- Witness for C3 at a concrete transport failure. -/
theorem get_voices_generate_speech_degraded_witness :
    httpFailed (HttpOutcome.transportError (α := VoicesBody) "connection refused") = true ∧
    httpFailed (HttpOutcome.transportError (α := List Nat) "connection refused") = true ∧
    (get_voices (.transportError "connection refused") = [] ∧
      (generate_speech "hi" "v1" "eleven_monolingual_v1" Option.none
        (.transportError "connection refused")).2 = Option.none) :=
  ⟨rfl, rfl,
    get_voices_generate_speech_degraded (.transportError "connection refused")
      (.transportError "connection refused") "hi" "v1" "eleven_monolingual_v1"
      Option.none rfl rfl⟩

/-- C5 (code bug): `serve` constructs the MIA bridge with keyword arguments
`host=`/`port=`, but `MIAVoiceIntegration.__init__` declares `mia_host`/
`mia_port`, so the construction raises `TypeError` for every host and port
and the serving loop is never reached; the constructor body itself would
build the base URL `http://host:port` as the spec describes. -/
theorem serve_bridge_construction_fails (h : String) (p : Nat) :
    serveBridgeConstruction h p =
      .error (.typeError "__init__() got an unexpected keyword argument 'host'") ∧
    (MIAVoiceIntegration.init h p).mia_base_url = "http://" ++ h ++ ":" ++ toString p :=
  ⟨rfl, rfl⟩

/-- C7: creating a profile and then fetching it by the same name yields a
present profile carrying exactly the given voice id and settings. -/
theorem profile_round_trip (store : Store) (n v : String) (s : Settings) (t : ℚ) :
    ∃ p : VoiceProfile, get_profile (create_profile store n v s t) n = some p ∧
      p.voice_id = v ∧ p.settings = s :=
  ⟨⟨v, s, t⟩, get_profile_create store n v s t, rfl, rfl⟩

/-- C8: overwriting a profile name is last-write-wins — the second create
replaces the first entirely (voice id and settings both come from the
second call, no merge), and profile names remain unique keys. -/
theorem profile_overwrite (store : Store) (n v1 v2 : String) (s1 s2 : Settings)
    (t1 t2 : ℚ) (hnd : (list_profiles store).Nodup) :
    get_profile (create_profile (create_profile store n v1 s1 t1) n v2 s2 t2) n =
      some ⟨v2, s2, t2⟩ ∧
    (list_profiles (create_profile (create_profile store n v1 s1 t1) n v2 s2 t2)).Nodup := by
  refine ⟨get_profile_create _ n v2 s2 t2, ?_⟩
  exact list_profiles_dictSet_nodup _ n _
    (list_profiles_dictSet_nodup _ n _ hnd)

/-- Witness for C8 on the empty store. -/
theorem profile_overwrite_witness :
    (list_profiles ([] : Store)).Nodup ∧
    (get_profile (create_profile (create_profile [] "mia" "v1" [] 0) "mia" "v2"
        defaultVoiceSettings 1) "mia" = some ⟨"v2", defaultVoiceSettings, 1⟩ ∧
      (list_profiles (create_profile (create_profile [] "mia" "v1" [] 0) "mia" "v2"
        defaultVoiceSettings 1)).Nodup) :=
  ⟨List.nodup_nil,
    profile_overwrite [] "mia" "v1" "v2" [] defaultVoiceSettings 0 1 List.nodup_nil⟩

/-- C9: `generate_speech` always sends `Accept: audio/mpeg`; the body has
exactly the fields `text`, `model_id`, `voice_settings`; an unsupplied
`model_id` defaults to `eleven_monolingual_v1` and unsupplied settings to
`{stability: 0.5, similarity_boost: 0.5}`. -/
theorem generate_speech_request_shape (text voice_id model_id : String)
    (vs : Option Settings) (o : HttpOutcome (List Nat)) :
    ((generate_speech text voice_id model_id vs o).1).accept = "audio/mpeg" ∧
    ((generate_speech text voice_id model_id vs o).1).payload.map Prod.fst =
      ["text", "model_id", "voice_settings"] ∧
    resolveModelId Option.none = "eleven_monolingual_v1" ∧
    ((generate_speech text voice_id model_id vs o).1).payload =
      [("text", BodyField.str text), ("model_id", BodyField.str model_id),
       ("voice_settings", BodyField.settings (pyOrDict vs defaultVoiceSettings))] ∧
    pyOrDict Option.none defaultVoiceSettings = defaultVoiceSettings := by
  refine ⟨?_, ?_, rfl, ?_, rfl⟩ <;>
    cases htr : tryRequest o <;>
    simp [generate_speech, htr, ttsRequest, ttsPayload]

/-- C10: an explicitly supplied empty settings dict is falsy in
`voice_settings or {...}`, so the request carries the default settings —
identical to the absent case. -/
theorem generate_speech_empty_settings_default (text voice_id model_id : String)
    (o : HttpOutcome (List Nat)) :
    (generate_speech text voice_id model_id (some []) o).1 =
      (generate_speech text voice_id model_id Option.none o).1 ∧
    ((generate_speech text voice_id model_id (some []) o).1).payload =
      [("text", BodyField.str text), ("model_id", BodyField.str model_id),
       ("voice_settings", BodyField.settings defaultVoiceSettings)] := by
  cases htr : tryRequest o <;>
    simp [generate_speech, htr, ttsRequest, ttsPayload, pyOrDict]

/-- C1: a single `call_tool` invocation never propagates an exception past
the dispatch boundary — whenever the `try`-block body raises, the handler
returns the one-element textual error result for that call. -/
theorem call_tool_never_raises (w : World) (store : Store) (name : String) (args : Args) :
    (∃ r st fx, callToolRaw w store name args = (.ok r, st, fx) ∧
      call_tool w store name args = (r, st, fx)) ∨
    (∃ e st fx, callToolRaw w store name args = (.error e, st, fx) ∧
      call_tool w store name args =
        ([TextContent.mk "text" ("Error executing " ++ name ++ ": " ++ excMsg e)], st, fx) ∧
      (call_tool w store name args).1.length = 1) := by
  rcases h : callToolRaw w store name args with ⟨res, st, fx⟩
  cases res with
  | ok r => exact Or.inl ⟨r, st, fx, rfl, by simp [call_tool, h]⟩
  | error e => exact Or.inr ⟨e, st, fx, rfl, by simp [call_tool, h], by simp [call_tool, h]⟩

/-- C2: dispatching a name outside the 8-tool catalog yields a one-element
textual error result whose text contains the offending name, and the raised
`ValueError` is confined to that call. -/
theorem call_tool_unknown_tool (w : World) (store : Store) (name : String) (args : Args)
    (h : name ∉ toolCatalog) :
    call_tool w store name args =
      ([TextContent.mk "text"
          ("Error executing " ++ name ++ ": " ++ ("Unknown tool: " ++ name))],
       store, []) ∧
    ∃ pre post,
      "Error executing " ++ name ++ ": " ++ ("Unknown tool: " ++ name) =
        pre ++ name ++ post := by
  simp only [toolCatalog, List.mem_cons, List.not_mem_nil, or_false, not_or] at h
  obtain ⟨h1, h2, h3, h4, h5, h6, h7, h8⟩ := h
  constructor
  · simp [call_tool, callToolRaw, excMsg, h1, h2, h3, h4, h5, h6, h7, h8]
  · exact ⟨"Error executing ", ": " ++ ("Unknown tool: " ++ name),
      strAppendAssoc ("Error executing " ++ name) ": " ("Unknown tool: " ++ name)⟩

/-- Witness for C2 at the undeclared name `bogus`. -/
theorem call_tool_unknown_tool_witness :
    "bogus" ∉ toolCatalog ∧
    (call_tool sampleWorld [] "bogus" [] =
      ([TextContent.mk "text"
          ("Error executing " ++ "bogus" ++ ": " ++ ("Unknown tool: " ++ "bogus"))],
       [], []) ∧
    ∃ pre post,
      "Error executing " ++ "bogus" ++ ": " ++ ("Unknown tool: " ++ "bogus") =
        pre ++ "bogus" ++ post) :=
  ⟨by decide, call_tool_unknown_tool sampleWorld [] "bogus" [] (by decide)⟩

/-- C6: `generate-speech-from-profile` with a profile name absent from the
store answers "Voice profile '<name>' not found" and performs no external
call at all — in particular no voice-synthesis request. -/
theorem profile_not_found_no_synthesis (w : World) (store : Store) (t pn : String)
    (hp : get_profile store pn = Option.none) :
    call_tool w store ElevenLabsTools.GENERATE_SPEECH_FROM_PROFILE
        [("text", PyVal.str t), ("profile_name", PyVal.str pn)] =
      ([TextContent.mk "text" ("Voice profile '" ++ pn ++ "' not found")], store, []) ∧
    (call_tool w store ElevenLabsTools.GENERATE_SPEECH_FROM_PROFILE
        [("text", PyVal.str t), ("profile_name", PyVal.str pn)]).2.2.all
      (fun e => !e.isTts) = true := by
  have hmain : call_tool w store ElevenLabsTools.GENERATE_SPEECH_FROM_PROFILE
      [("text", PyVal.str t), ("profile_name", PyVal.str pn)] =
      ([TextContent.mk "text" ("Voice profile '" ++ pn ++ "' not found")], store, []) := by
    simp [call_tool, callToolRaw, handleGenSpeechFromProfile, dictGetExc, List.find?,
      PyVal.toStr, hp,
      ElevenLabsTools.LIST_VOICES, ElevenLabsTools.GET_VOICE_DETAILS,
      ElevenLabsTools.GENERATE_SPEECH, ElevenLabsTools.CREATE_VOICE_PROFILE,
      ElevenLabsTools.LIST_VOICE_PROFILES, ElevenLabsTools.GENERATE_SPEECH_FROM_PROFILE,
      ElevenLabsTools.MIA_VOICE_COMMAND, ElevenLabsTools.GET_MIA_STATUS]
  exact ⟨hmain, by rw [hmain]; rfl⟩

/-- Witness for C6 on the empty store. -/
theorem profile_not_found_no_synthesis_witness :
    get_profile ([] : Store) "missing" = Option.none ∧
    (call_tool sampleWorld [] ElevenLabsTools.GENERATE_SPEECH_FROM_PROFILE
        [("text", PyVal.str "hello"), ("profile_name", PyVal.str "missing")] =
      ([TextContent.mk "text" ("Voice profile '" ++ "missing" ++ "' not found")], [], []) ∧
    (call_tool sampleWorld [] ElevenLabsTools.GENERATE_SPEECH_FROM_PROFILE
        [("text", PyVal.str "hello"), ("profile_name", PyVal.str "missing")]).2.2.all
      (fun e => !e.isTts) = true) :=
  ⟨rfl, profile_not_found_no_synthesis sampleWorld [] "hello" "missing" rfl⟩

set_option maxRecDepth 40000 in
/-- C4 counterexample: with no profile named `default` in the store,
`mia_voice_command` does NOT return a "not found" result — it returns the
command-execution text (the voice readout is silently skipped). -/
theorem mia_voice_command_absent_profile_counterexample :
    get_profile ([] : Store) "default" = Option.none ∧
    call_tool sampleWorld [] ElevenLabsTools.MIA_VOICE_COMMAND
        [("command", PyVal.str "turn on the lights")] =
      ([TextContent.mk "text"
          "Voice command executed: turn on the lights. Command completed successfully."],
       [], [Effect.miaCommand "turn on the lights"]) ∧
    ¬ ("not found".toList <:+:
        "Voice command executed: turn on the lights. Command completed successfully.".toList) := by
  refine ⟨rfl, ?_, by decide⟩
  rfl

/-- C4 amended: when the named voice profile is absent, the two
MIA-integration tools still answer with their textual command/status
result — the voice synthesis step is skipped (no TTS call, no "not found"
message); only `generate-speech-from-profile` reports "not found". -/
theorem mia_tools_absent_profile (w : World) (store : Store) (args : Args) (cmdV : PyVal)
    (hc : dictGetExc args "command" = .ok cmdV)
    (hp : get_profile store
      ((dictGetD args "voice_profile" (PyVal.str "default")).toStr) = Option.none)
    (st : String)
    (hs : miaStatusTextOf (get_mia_status w.miaStatusResult) = .ok st) :
    call_tool w store ElevenLabsTools.MIA_VOICE_COMMAND args =
      ([TextContent.mk "text"
          (miaCommandResponseText (execute_voice_command w.miaCommandResult) cmdV.toStr)],
       store, [Effect.miaCommand cmdV.toStr]) ∧
    call_tool w store ElevenLabsTools.GET_MIA_STATUS args =
      ([TextContent.mk "text" st], store, [Effect.miaStatus]) := by
  constructor
  · simp [call_tool, callToolRaw, handleMiaVoiceCommand, hc, hp,
      ElevenLabsTools.LIST_VOICES, ElevenLabsTools.GET_VOICE_DETAILS,
      ElevenLabsTools.GENERATE_SPEECH, ElevenLabsTools.CREATE_VOICE_PROFILE,
      ElevenLabsTools.LIST_VOICE_PROFILES, ElevenLabsTools.GENERATE_SPEECH_FROM_PROFILE,
      ElevenLabsTools.MIA_VOICE_COMMAND, ElevenLabsTools.GET_MIA_STATUS]
  · simp [call_tool, callToolRaw, handleGetMiaStatus, hs, hp,
      ElevenLabsTools.LIST_VOICES, ElevenLabsTools.GET_VOICE_DETAILS,
      ElevenLabsTools.GENERATE_SPEECH, ElevenLabsTools.CREATE_VOICE_PROFILE,
      ElevenLabsTools.LIST_VOICE_PROFILES, ElevenLabsTools.GENERATE_SPEECH_FROM_PROFILE,
      ElevenLabsTools.MIA_VOICE_COMMAND, ElevenLabsTools.GET_MIA_STATUS]

/-- Witness for the amended C4 on the empty store. -/
theorem mia_tools_absent_profile_witness :
    dictGetExc [("command", PyVal.str "hello")] "command" = .ok (PyVal.str "hello") ∧
    get_profile ([] : Store)
      ((dictGetD [("command", PyVal.str "hello")] "voice_profile"
        (PyVal.str "default")).toStr) = Option.none ∧
    miaStatusTextOf (get_mia_status sampleWorld.miaStatusResult) =
      .ok "MIA system status: System has issues. 0 devices connected." ∧
    (call_tool sampleWorld [] ElevenLabsTools.MIA_VOICE_COMMAND
        [("command", PyVal.str "hello")] =
      ([TextContent.mk "text"
          (miaCommandResponseText (execute_voice_command sampleWorld.miaCommandResult)
            (PyVal.str "hello").toStr)],
       [], [Effect.miaCommand (PyVal.str "hello").toStr]) ∧
    call_tool sampleWorld [] ElevenLabsTools.GET_MIA_STATUS
        [("command", PyVal.str "hello")] =
      ([TextContent.mk "text" "MIA system status: System has issues. 0 devices connected."],
       [], [Effect.miaStatus])) :=
  ⟨rfl, rfl, rfl,
    mia_tools_absent_profile sampleWorld [] [("command", PyVal.str "hello")]
      (PyVal.str "hello") rfl rfl
      "MIA system status: System has issues. 0 devices connected." rfl⟩
